import Mathlib

/-!
Shallow embedding of the UniFi Insights data-update coordinator
(`custom_components/unifi_insights/coordinator.py`).

Python `dict`s are modelled as association lists with first-match lookup
and in-place replacement on insert, which matches Python dict semantics
(update in place for an existing key, append for a new key).  Network
calls are modelled as pure inputs: `none`/error constructors stand for a
raised exception, `some` for a normal return.
-/

namespace UnifiInsights

/-- First-match lookup in an association list (Python `dict` read). -/
def lookup {α : Type} : List (String × α) → String → Option α
  | [], _ => none
  | (k, v) :: rest, key => if k = key then some v else lookup rest key

/-- Insert-or-replace in an association list (Python `dict` write). -/
def setKey {α : Type} : List (String × α) → String → α → List (String × α)
  | [], key, v => [(key, v)]
  | (k, w) :: rest, key, v =>
      if k = key then (key, v) :: rest else (k, w) :: setKey rest key v

/-- A Unifi Protect camera object.  `payload` stands for all fields the
coordinator never touches; the named fields are the ones read or written
by the coordinator. -/
structure Camera where
  id : Option String
  lastMotion : Option Int
  lastSmartDetectTypes : List String
  lastRing : Option Int
  payload : String
deriving DecidableEq

/-- A Unifi Protect light object. -/
structure Light where
  id : Option String
  lastMotion : Option Int
  payload : String
deriving DecidableEq

/-- A Unifi Protect sensor object. -/
structure Sensor where
  id : Option String
  payload : String
deriving DecidableEq

/-- A Unifi Protect NVR object. -/
structure Nvr where
  id : Option String
  payload : String
deriving DecidableEq

/-- A Unifi Protect viewer object. -/
structure Viewer where
  id : Option String
  payload : String
deriving DecidableEq

/-- A Unifi Protect chime object. -/
structure Chime where
  id : Option String
  payload : String
deriving DecidableEq

/-- A Protect push-event payload: `id`, `device`, `start` and
`smartDetectTypes` are read with `.get`, so each is optional. -/
structure EventData where
  id : Option String
  device : Option String
  start : Option Int
  smartDetectTypes : Option (List String)
deriving DecidableEq

/-- The `self.data["protect"]` sub-structure of the coordinator. -/
structure ProtectData where
  cameras : List (String × Camera)
  lights : List (String × Light)
  sensors : List (String × Sensor)
  nvrs : List (String × Nvr)
  viewers : List (String × Viewer)
  chimes : List (String × Chime)
  events : List (String × List (String × EventData))
deriving DecidableEq

/-- The initial, empty `self.data["protect"]` map. -/
def emptyProtect : ProtectData :=
  { cameras := [], lights := [], sensors := [], nvrs := [], viewers := [],
    chimes := [], events := [] }

/-- Per-device-id correlation step of `_handle_event_update` (the
`if/elif` chain over `event_type` and the device maps). -/
def applyDeviceEvent (eventType : String) (e : EventData) (did : String)
    (p : ProtectData) : ProtectData :=
  if eventType = "motion" then
    match lookup p.cameras did with
    | some cam =>
        let cam' : Camera :=
          { cam with lastMotion := e.start, lastSmartDetectTypes := [] }
        { p with cameras := setKey p.cameras did cam' }
    | none =>
        match lookup p.lights did with
        | some l =>
            { p with lights := setKey p.lights did ({ l with lastMotion := e.start }) }
        | none => p
  else if eventType = "smartDetectZone" then
    match lookup p.cameras did with
    | some cam =>
        let cam' : Camera :=
          { cam with lastMotion := some (e.start.getD 0),
                     lastSmartDetectTypes := e.smartDetectTypes.getD [] }
        { p with cameras := setKey p.cameras did cam' }
    | none => p
  else if eventType = "ring" then
    match lookup p.cameras did with
    | some cam =>
        { p with cameras := setKey p.cameras did ({ cam with lastRing := e.start }) }
    | none => p
  else p

/-- `_handle_event_update`: drop events without a truthy id, store the
event under `(event_type, event_id)`, then apply device correlation when
the event names a device with a truthy id. -/
def handle_event_update (eventType : String) (e : EventData)
    (p : ProtectData) : ProtectData :=
  match e.id with
  | none => p
  | some eid =>
      if eid = "" then p
      else
        let typeMap := (lookup p.events eventType).getD []
        let p1 : ProtectData :=
          { p with events := setKey p.events eventType (setKey typeMap eid e) }
        match e.device with
        | none => p1
        | some did => if did = "" then p1 else applyDeviceEvent eventType e did p1

/-- The camera-storing loop of the Protect bulk fetch: every camera with
a truthy id is stored with `lastSmartDetectTypes` reset to `[]`. -/
def storeCameras : List Camera → List (String × Camera) → List (String × Camera)
  | [], m => m
  | c :: rest, m =>
      match c.id with
      | some cid =>
          if cid = "" then storeCameras rest m
          else storeCameras rest (setKey m cid ({ c with lastSmartDetectTypes := [] }))
      | none => storeCameras rest m

/-- The light-storing loop of the Protect bulk fetch. -/
def storeLights : List Light → List (String × Light) → List (String × Light)
  | [], m => m
  | l :: rest, m =>
      match l.id with
      | some lid =>
          if lid = "" then storeLights rest m
          else storeLights rest (setKey m lid l)
      | none => storeLights rest m

/-- The sensor-storing loop of the Protect bulk fetch. -/
def storeSensors : List Sensor → List (String × Sensor) → List (String × Sensor)
  | [], m => m
  | s :: rest, m =>
      match s.id with
      | some sid =>
          if sid = "" then storeSensors rest m
          else storeSensors rest (setKey m sid s)
      | none => storeSensors rest m

/-- The NVR-storing loop shared by the list and wrapper-object response
shapes. -/
def storeNvrs : List Nvr → List (String × Nvr) → List (String × Nvr)
  | [], m => m
  | n :: rest, m =>
      match n.id with
      | some nid =>
          if nid = "" then storeNvrs rest m
          else storeNvrs rest (setKey m nid n)
      | none => storeNvrs rest m

/-- The chime-storing loop of the Protect bulk fetch. -/
def storeChimes : List Chime → List (String × Chime) → List (String × Chime)
  | [], m => m
  | c :: rest, m =>
      match c.id with
      | some cid =>
          if cid = "" then storeChimes rest m
          else storeChimes rest (setKey m cid c)
      | none => storeChimes rest m

/-- The possible shapes of the `async_get_nvrs` response that the
coordinator inspects: a plain list, a wrapper dict with an `nvrs` key, a
bare string, or anything else. -/
inductive NvrResponse where
  | listResp : List Nvr → NvrResponse
  | dictResp : List Nvr → NvrResponse
  | strResp : String → NvrResponse
  | otherResp : NvrResponse

/-- One refresh cycle's Protect API outcomes.  `none` means the call
raised.  `nvrDetail` models `async_get_nvr`: outer `none` means the call
raised, `some none` a non-dict response, `some (some n)` a dict. -/
structure ProtectFetch where
  cameras : Option (List Camera)
  lights : Option (List Light)
  sensors : Option (List Sensor)
  nvrs : Option NvrResponse
  nvrDetail : String → Option (Option Nvr)
  chimes : Option (List Chime)
  websocketOk : Bool

/-- The sensors fetch step with its own inner `try`/`except`: a raised
fetch is logged and the map is left unchanged. -/
def sensorsStep (fs : Option (List Sensor)) (m : List (String × Sensor)) :
    List (String × Sensor) :=
  match fs with
  | some ss => storeSensors ss m
  | none => m

/-- The NVR fetch step with its own inner `try`/`except` and the
defensive response-shape handling. -/
def nvrsStep (resp : Option NvrResponse) (detail : String → Option (Option Nvr))
    (m : List (String × Nvr)) : List (String × Nvr) :=
  match resp with
  | none => m
  | some (NvrResponse.listResp ns) => storeNvrs ns m
  | some (NvrResponse.dictResp ns) => storeNvrs ns m
  | some (NvrResponse.strResp s) =>
      let nid := s.trim
      if nid = "" then m
      else
        match detail nid with
        | some (some n) => setKey m nid n
        | some none => m
        | none => m
  | some NvrResponse.otherResp => m

/-- The chimes fetch step with its own inner `try`/`except`. -/
def chimesStep (fc : Option (List Chime)) (m : List (String × Chime)) :
    List (String × Chime) :=
  match fc with
  | some cs => storeChimes cs m
  | none => m

/-- The Protect bulk-fetch pass of `_async_update_data` (lines 266-362).
The cameras and lights fetches sit directly inside the outer
`try`/`except`, so a raise there aborts the rest of the pass; the
sensors, NVR and chime fetches each have their own inner guard.  The
WebSocket start and the final debug log have no effect on the data. -/
def protectPass (f : ProtectFetch) (p : ProtectData) : ProtectData :=
  match f.cameras with
  | none => p
  | some cs =>
      let p1 : ProtectData := { p with cameras := storeCameras cs p.cameras }
      match f.lights with
      | none => p1
      | some ls =>
          let p2 : ProtectData := { p1 with lights := storeLights ls p1.lights }
          let p3 : ProtectData := { p2 with sensors := sensorsStep f.sensors p2.sensors }
          let p4 : ProtectData := { p3 with nvrs := nvrsStep f.nvrs f.nvrDetail p3.nvrs }
          { p4 with chimes := chimesStep f.chimes p4.chimes }

/-- A Network site object from `async_get_sites`: keyed by its mandatory
`id`; `payload` stands for the display metadata. -/
structure Site where
  id : String
  payload : String
deriving DecidableEq

/-- A Network device listing object.  `id` is mandatory (`device["id"]`);
`payload` stands for the base listing fields; `info` records the merged
device-info object once `device.update(device_info)` has run. -/
structure Device where
  id : String
  payload : String
  info : Option String
deriving DecidableEq

/-- A Network client object: mandatory `id`, optional `uplinkDeviceId`
(read with `.get`). -/
structure Client where
  id : String
  uplinkDeviceId : Option String
  payload : String
deriving DecidableEq

/-- A stored statistics record.  The empty Python dict `{}` is the record
with every field absent; a successfully fetched record carries the raw
stats payload plus the `id` and `clients` keys the coordinator adds. -/
structure StatsRec where
  id : Option String
  clients : Option (List Client)
  payload : Option String
deriving DecidableEq

/-- The empty stats object `{}` stored on a failed or `None` fetch. -/
def StatsRec.emptyRec : StatsRec := { id := none, clients := none, payload := none }

/-- Outcome of `async_get_sites`: a normal return, an auth error, or a
connection error. -/
inductive SitesResult where
  | ok : List Site → SitesResult
  | authErr : SitesResult
  | connErr : SitesResult

/-- One refresh cycle's Network API outcomes, plus the optional Protect
pass (`none` when no Protect API is configured).  For each fallible call,
`none` models a raised exception; `deviceStats` can also return Python
`None` (`some none`). -/
structure Api where
  sites : SitesResult
  devicesOf : String → Option (List Device)
  clientsOf : String → Option (List Client)
  deviceInfo : String → String → Option String
  deviceStats : String → String → Option (Option String)
  protect : Option ProtectFetch

/-- `_process_device`: fetch device info and stats together under one
`try`; on success merge the info into the device and annotate the stats
with the matching clients and the device id; a raise from either fetch
(or anywhere in the `try`) yields the unmodified device and `{}`. -/
def process_device (api : Api) (siteId : String) (device : Device)
    (clients : List Client) : String × Device × StatsRec :=
  let deviceId := device.id
  match api.deviceInfo siteId deviceId, api.deviceStats siteId deviceId with
  | some info, some statsResp =>
      let device' : Device := { device with info := some info }
      match statsResp with
      | some payload =>
          let stats : StatsRec :=
            { id := some deviceId,
              clients := some (clients.filter (fun c => c.uplinkDeviceId == some deviceId)),
              payload := some payload }
          (deviceId, device', stats)
      | none => (deviceId, device', StatsRec.emptyRec)
  | _, _ => (deviceId, device, StatsRec.emptyRec)

/-- `_process_site`: fetch the site's devices and clients together under
one `try`; on success process every device and build the three per-site
dicts; a raise returns `None`. -/
def process_site (api : Api) (siteId : String) :
    Option (List (String × Device) × List (String × StatsRec) × List (String × Client)) :=
  match api.devicesOf siteId, api.clientsOf siteId with
  | some devices, some clients =>
      let results := devices.map (fun d => process_device api siteId d clients)
      let devicesDict := results.foldl (fun m r => setKey m r.1 r.2.1) []
      let statsDict := results.foldl (fun m r => setKey m r.1 r.2.2) []
      let clientsDict := clients.foldl (fun m c => setKey m c.id c) []
      some (devicesDict, statsDict, clientsDict)
  | _, _ => none

/-- The coordinator's `self.data` together with its `_available` flag. -/
structure CoordState where
  sites : List (String × Site)
  devices : List (String × List (String × Device))
  clients : List (String × List (String × Client))
  stats : List (String × List (String × StatsRec))
  protect : ProtectData
  available : Bool
deriving DecidableEq

/-- The coordinator's state right after `__init__`. -/
def initialCoordState : CoordState :=
  { sites := [], devices := [], clients := [], stats := [],
    protect := emptyProtect, available := true }

/-- Outcome of one `_async_update_data` call: a normal return, a raised
`ConfigEntryAuthFailed`, or a raised `UpdateFailed`. -/
inductive UpdateOutcome where
  | ok : UpdateOutcome
  | authFailed : UpdateOutcome
  | updateFailed : UpdateOutcome
deriving DecidableEq

/-- Build a Python dict comprehension `{key(x): x for x in xs}`. -/
def buildDict {α : Type} (key : α → String) (xs : List α) : List (String × α) :=
  xs.foldl (fun m x => setKey m (key x) x) []

/-- One iteration of the per-site result loop of `_async_update_data`:
a `None` result leaves that site's devices/stats/clients untouched. -/
def stepSite (api : Api) (st : CoordState) (siteId : String) : CoordState :=
  match process_site api siteId with
  | some (dd, sd, cd) =>
      { st with devices := setKey st.devices siteId dd,
                stats := setKey st.stats siteId sd,
                clients := setKey st.clients siteId cd }
  | none => st

/-- `_async_update_data`: replace the site map wholesale, process every
site, run the Protect pass when configured, then set `_available := true`.
An auth or connection error from the site listing raises and sets
`_available := false`. -/
def async_update_data (api : Api) (st : CoordState) : UpdateOutcome × CoordState :=
  match api.sites with
  | SitesResult.authErr => (UpdateOutcome.authFailed, { st with available := false })
  | SitesResult.connErr => (UpdateOutcome.updateFailed, { st with available := false })
  | SitesResult.ok siteList =>
      let sitesDict := buildDict Site.id siteList
      let st1 : CoordState := { st with sites := sitesDict }
      let st2 := (sitesDict.map Prod.fst).foldl (stepSite api) st1
      let st3 : CoordState :=
        match api.protect with
        | some f => { st2 with protect := protectPass f st2.protect }
        | none => st2
      (UpdateOutcome.ok, { st3 with available := true })

/-- A concrete light used in examples. -/
def lightL1 : Light := { id := some "l1", lastMotion := none, payload := "lp" }

/-- A concrete camera (with a stale smart-detect classification). -/
def camA : Camera :=
  { id := some "cam1", lastMotion := none, lastSmartDetectTypes := ["vehicle"],
    lastRing := none, payload := "cp" }

/-- A Protect cycle where the camera fetch raises but every other kind
would succeed. -/
def fetchCamerasFail : ProtectFetch :=
  { cameras := none, lights := some [lightL1], sensors := some [],
    nvrs := some (NvrResponse.listResp []), nvrDetail := fun _ => none,
    chimes := some [], websocketOk := true }

/-- A Protect cycle where cameras and lights succeed and the sensors and
NVR fetches raise. -/
def fetchAllOk : ProtectFetch :=
  { cameras := some [camA], lights := some [lightL1], sensors := none,
    nvrs := none, nvrDetail := fun _ => none,
    chimes := some [], websocketOk := true }

/-- A Protect store holding one camera, used for push-event examples. -/
def protectWithCam : ProtectData := { emptyProtect with cameras := [("cam1", camA)] }

/-- A concrete site. -/
def siteS1 : Site := { id := "s1", payload := "sp" }

/-- A concrete device listing record. -/
def devD1 : Device := { id := "d1", payload := "base", info := none }

/-- A client uplinked to `d1`. -/
def clientU1 : Client := { id := "c1", uplinkDeviceId := some "d1", payload := "cl1" }

/-- A client uplinked elsewhere. -/
def clientU2 : Client := { id := "c2", uplinkDeviceId := some "dX", payload := "cl2" }

/-- An API where the device-info fetch raises while the stats fetch
succeeds. -/
def apiInfoFail : Api :=
  { sites := SitesResult.ok [],
    devicesOf := fun _ => none, clientsOf := fun _ => none,
    deviceInfo := fun _ _ => none,
    deviceStats := fun _ _ => some (some "sp"),
    protect := none }

/-- An API listing site `s1` whose per-site device/client fetches raise. -/
def apiSiteFetchFail : Api :=
  { sites := SitesResult.ok [siteS1],
    devicesOf := fun _ => none, clientsOf := fun _ => none,
    deviceInfo := fun _ _ => none, deviceStats := fun _ _ => none,
    protect := none }

/-- An API whose site listing returns the empty list. -/
def apiNoSites : Api :=
  { sites := SitesResult.ok [], devicesOf := fun _ => none,
    clientsOf := fun _ => none, deviceInfo := fun _ _ => none,
    deviceStats := fun _ _ => none, protect := none }

/-- An API listing site `s1` where every per-device stats fetch raises. -/
def apiStatsFail : Api :=
  { sites := SitesResult.ok [siteS1],
    devicesOf := fun s => if s = "s1" then some [devD1] else none,
    clientsOf := fun s => if s = "s1" then some [] else none,
    deviceInfo := fun _ _ => some "fw",
    deviceStats := fun _ _ => none,
    protect := none }

/-- An API where everything succeeds. -/
def apiAllOk : Api :=
  { sites := SitesResult.ok [siteS1],
    devicesOf := fun _ => some [devD1],
    clientsOf := fun _ => some [clientU1, clientU2],
    deviceInfo := fun _ _ => some "fw",
    deviceStats := fun _ _ => some (some "sp"),
    protect := none }

/-- An API whose site listing raises an auth error. -/
def apiAuthFail : Api :=
  { sites := SitesResult.authErr, devicesOf := fun _ => none,
    clientsOf := fun _ => none, deviceInfo := fun _ _ => none,
    deviceStats := fun _ _ => none, protect := none }

/-- A coordinator state holding previously fetched data for site `s1`. -/
def stPrev : CoordState :=
  { sites := [], devices := [("s1", [("d1", devD1)])],
    clients := [("s1", [("c1", clientU1)])],
    stats := [("s1", [("d1", StatsRec.emptyRec)])],
    protect := emptyProtect, available := true }

/-- The `smartDetectZone` push event of the event-correlation scenario:
types `["person"]`, start `1000`, aimed at `camId`. -/
def smartEvent (camId : String) : EventData :=
  { id := some "evt1", device := some camId, start := some 1000,
    smartDetectTypes := some ["person"] }

/-- The subsequent plain `motion` push event with start `2000`. -/
def motionEvent (camId : String) : EventData :=
  { id := some "evt2", device := some camId, start := some 2000,
    smartDetectTypes := none }

/-- Device-to-stats coverage invariant of the snapshot: every device key
visible in the Device map has a (possibly empty) record under the same
`(site, device)` key in the Stats map. -/
def coverInv (st : CoordState) : Prop :=
  ∀ siteId deviceId dd, lookup st.devices siteId = some dd →
    (lookup dd deviceId).isSome = true →
    ∃ sd, lookup st.stats siteId = some sd ∧ (lookup sd deviceId).isSome = true

/-- Stats-id invariant of the snapshot: every stored stats record is
either the empty object `{}` or carries `id` equal to its device key. -/
def statsIdInv (st : CoordState) : Prop :=
  ∀ siteId deviceId sd r, lookup st.stats siteId = some sd →
    lookup sd deviceId = some r →
    r = StatsRec.emptyRec ∨ r.id = some deviceId

/-- The state after the site-map replacement and the per-site processing
loop of a successful cycle (before the Protect pass and the
`available := true` step). -/
def refreshedState (api : Api) (st : CoordState) (l : List Site) : CoordState :=
  ((buildDict Site.id l).map Prod.fst).foldl (stepSite api)
    { st with sites := buildDict Site.id l }

theorem lookup_setKey_self {α : Type} (m : List (String × α)) (k : String) (v : α) :
    lookup (setKey m k v) k = some v := by
  induction m with
  | nil => simp [setKey, lookup]
  | cons hd tl ih =>
      obtain ⟨k', w⟩ := hd
      by_cases hk : k' = k
      · simp [setKey, hk, lookup]
      · simp [setKey, hk, lookup, ih]

theorem lookup_setKey_ne {α : Type} (m : List (String × α)) (k key : String) (v : α)
    (h : key ≠ k) : lookup (setKey m k v) key = lookup m key := by
  induction m with
  | nil =>
      simp only [setKey, lookup]
      rw [if_neg (fun hh => h hh.symm)]
  | cons hd tl ih =>
      obtain ⟨k', w⟩ := hd
      by_cases hk : k' = k
      · subst hk
        simp only [setKey, if_pos rfl, lookup]
        rw [if_neg (fun hh => h hh.symm), if_neg (fun hh => h hh.symm)]
      · simp only [setKey, if_neg hk, lookup]
        by_cases hk2 : k' = key
        · rw [if_pos hk2, if_pos hk2]
        · rw [if_neg hk2, if_neg hk2, ih]

theorem protectPass_cameras (f : ProtectFetch) (p : ProtectData) (cs : List Camera)
    (hc : f.cameras = some cs) :
    (protectPass f p).cameras = storeCameras cs p.cameras := by
  cases hl : f.lights <;> simp [protectPass, hc, hl]

theorem storeCameras_lookup_of_none (cs : List Camera) (m : List (String × Camera))
    (cid : String) (h : ∀ c ∈ cs, ¬(c.id = some cid ∧ cid ≠ "")) :
    lookup (storeCameras cs m) cid = lookup m cid := by
  induction cs generalizing m with
  | nil => rfl
  | cons c rest ih =>
      have hc := h c (List.mem_cons_self c rest)
      have hrest : ∀ c' ∈ rest, ¬(c'.id = some cid ∧ cid ≠ "") :=
        fun c' hm => h c' (List.mem_cons_of_mem c hm)
      cases hid : c.id with
      | none =>
          simp only [storeCameras, hid]
          exact ih m hrest
      | some cid' =>
          by_cases hcid' : cid' = ""
          · simp only [storeCameras, hid, if_pos hcid']
            exact ih m hrest
          · simp only [storeCameras, hid, if_neg hcid']
            rw [ih _ hrest]
            apply lookup_setKey_ne
            intro hkey
            exact hc ⟨hkey ▸ hid, fun he => hcid' (hkey.symm.trans he)⟩

theorem storeCameras_lookup_of_mem (cs : List Camera) (m : List (String × Camera))
    (cid : String) (h : ∃ c ∈ cs, c.id = some cid ∧ cid ≠ "") :
    ∃ cam, lookup (storeCameras cs m) cid = some cam ∧
      cam.lastSmartDetectTypes = [] := by
  induction cs generalizing m with
  | nil =>
      obtain ⟨c, hc, _⟩ := h
      cases hc
  | cons c rest ih =>
      by_cases hrest : ∃ c' ∈ rest, c'.id = some cid ∧ cid ≠ ""
      · cases hid : c.id with
        | none =>
            simp only [storeCameras, hid]
            exact ih m hrest
        | some cid' =>
            by_cases hcid' : cid' = ""
            · simp only [storeCameras, hid, if_pos hcid']
              exact ih m hrest
            · simp only [storeCameras, hid, if_neg hcid']
              exact ih _ hrest
      · obtain ⟨c0, hc0, hid0, hne0⟩ := h
        have hc0head : c0 = c := by
          rcases List.mem_cons.mp hc0 with h1 | h1
          · exact h1
          · exact absurd ⟨c0, h1, hid0, hne0⟩ hrest
        subst hc0head
        push_neg at hrest
        have hnone : ∀ c' ∈ rest, ¬(c'.id = some cid ∧ cid ≠ "") := by
          intro c' hm hand
          exact hand.2 (hrest c' hm hand.1)
        simp only [storeCameras, hid0, if_neg hne0]
        rw [storeCameras_lookup_of_none rest _ cid hnone, lookup_setKey_self]
        exact ⟨_, rfl, rfl⟩

/-- Claim C1 (counterexample): in a cycle where the camera fetch raises
but the light fetch would succeed with a light carrying a truthy id, the
light is nevertheless not stored — the cameras and lights fetches are
not under their own independent guards, so a camera failure aborts the
light fetch. -/
theorem claimC1_counterexample :
    fetchCamerasFail.lights = some [lightL1] ∧ lightL1.id = some "l1" ∧
    (protectPass fetchCamerasFail emptyProtect).lights = [] :=
  ⟨rfl, rfl, rfl⟩

/-- Claim C1 (amended): when the camera and light fetches both succeed,
each of the five Protect resource kinds' stored outcome is determined by
its own fetch alone — in particular the sensors, NVR and chime fetches
are independently guarded, so a failure in one of them never aborts the
others.  (As the counterexample shows, a camera or light fetch failure
does abort the remaining kinds.) -/
theorem claimC1_theorem (f : ProtectFetch) (p : ProtectData) (cs : List Camera)
    (ls : List Light) (hc : f.cameras = some cs) (hl : f.lights = some ls) :
    (protectPass f p).cameras = storeCameras cs p.cameras ∧
    (protectPass f p).lights = storeLights ls p.lights ∧
    (protectPass f p).sensors = sensorsStep f.sensors p.sensors ∧
    (protectPass f p).nvrs = nvrsStep f.nvrs f.nvrDetail p.nvrs ∧
    (protectPass f p).chimes = chimesStep f.chimes p.chimes := by
  simp [protectPass, hc, hl]

theorem claimC1_witness :
    (protectPass fetchAllOk emptyProtect).cameras =
      storeCameras [camA] emptyProtect.cameras ∧
    (protectPass fetchAllOk emptyProtect).lights =
      storeLights [lightL1] emptyProtect.lights ∧
    (protectPass fetchAllOk emptyProtect).sensors =
      sensorsStep fetchAllOk.sensors emptyProtect.sensors ∧
    (protectPass fetchAllOk emptyProtect).nvrs =
      nvrsStep fetchAllOk.nvrs fetchAllOk.nvrDetail emptyProtect.nvrs ∧
    (protectPass fetchAllOk emptyProtect).chimes =
      chimesStep fetchAllOk.chimes emptyProtect.chimes :=
  claimC1_theorem fetchAllOk emptyProtect [camA] [lightL1] rfl rfl

/-- Claim C10: every camera stored during the Protect bulk-fetch pass
(i.e. every camera from the fetched list with a truthy id) ends up in the
camera map with `lastSmartDetectTypes` reset to the empty list,
unconditionally overwriting any previously stored classification. -/
theorem claimC10_theorem (f : ProtectFetch) (p : ProtectData) (cs : List Camera)
    (cid : String) (hc : f.cameras = some cs)
    (hmem : ∃ c ∈ cs, c.id = some cid ∧ cid ≠ "") :
    ∃ cam, lookup (protectPass f p).cameras cid = some cam ∧
      cam.lastSmartDetectTypes = [] := by
  rw [protectPass_cameras f p cs hc]
  exact storeCameras_lookup_of_mem cs p.cameras cid hmem

theorem claimC10_witness :
    ∃ cam, lookup (protectPass fetchAllOk protectWithCam).cameras "cam1" = some cam ∧
      cam.lastSmartDetectTypes = [] :=
  claimC10_theorem fetchAllOk protectWithCam [camA] "cam1" rfl
    ⟨camA, List.mem_singleton.mpr rfl, rfl, by decide⟩

/-- Claim C3: for a camera identifier present in the camera map (with a
truthy id), a `smartDetectZone` event with `smartDetectTypes=["person"]`
and `start=1000` sets that camera's `lastMotion` to `1000` and
`lastSmartDetectTypes` to `["person"]`; a subsequent plain `motion` event
with `start=2000` then sets `lastMotion` to `2000` and resets
`lastSmartDetectTypes` to the empty list. -/
theorem claimC3_theorem (p : ProtectData) (camId : String) (cam : Camera)
    (hcam : lookup p.cameras camId = some cam) (hne : camId ≠ "") :
    ∃ c1 c2,
      lookup (handle_event_update "smartDetectZone" (smartEvent camId) p).cameras
        camId = some c1 ∧
      c1.lastMotion = some 1000 ∧ c1.lastSmartDetectTypes = ["person"] ∧
      lookup (handle_event_update "motion" (motionEvent camId)
        (handle_event_update "smartDetectZone" (smartEvent camId) p)).cameras
        camId = some c2 ∧
      c2.lastMotion = some 2000 ∧ c2.lastSmartDetectTypes = [] := by
  have hq : (handle_event_update "smartDetectZone" (smartEvent camId) p).cameras =
      setKey p.cameras camId
        ({ cam with lastMotion := some 1000, lastSmartDetectTypes := ["person"] }) := by
    simp [handle_event_update, smartEvent, applyDeviceEvent, hcam, hne]
  have hlq : lookup (handle_event_update "smartDetectZone" (smartEvent camId) p).cameras
      camId = some ({ cam with lastMotion := some 1000, lastSmartDetectTypes := ["person"] }) := by
    rw [hq, lookup_setKey_self]
  set q := handle_event_update "smartDetectZone" (smartEvent camId) p with hqdef
  have hq2 : (handle_event_update "motion" (motionEvent camId) q).cameras =
      setKey q.cameras camId
        ({ cam with lastMotion := some 2000, lastSmartDetectTypes := [] }) := by
    simp [handle_event_update, motionEvent, applyDeviceEvent, hlq, hne]
  exact ⟨_, _, hlq, rfl, rfl, by rw [hq2, lookup_setKey_self], rfl, rfl⟩

theorem claimC3_witness :
    ∃ c1 c2,
      lookup (handle_event_update "smartDetectZone" (smartEvent "cam1")
        protectWithCam).cameras "cam1" = some c1 ∧
      c1.lastMotion = some 1000 ∧ c1.lastSmartDetectTypes = ["person"] ∧
      lookup (handle_event_update "motion" (motionEvent "cam1")
        (handle_event_update "smartDetectZone" (smartEvent "cam1")
          protectWithCam)).cameras "cam1" = some c2 ∧
      c2.lastMotion = some 2000 ∧ c2.lastSmartDetectTypes = [] :=
  claimC3_theorem protectWithCam "cam1" camA rfl (by decide)

/-- Claim C2 (counterexample): the device-info and statistics fetches
are not independent failure domains.  Here the info fetch raises while
the stats fetch succeeds with a payload, yet the stored stats record is
the empty object rather than the successfully fetched, annotated one —
both fetches sit under the single `try` of `_process_device` and
`asyncio.gather` re-raises. -/
theorem claimC2_counterexample :
    apiInfoFail.deviceStats "s1" "d1" = some (some "sp") ∧
    process_device apiInfoFail "s1" devD1 [clientU1] =
      ("d1", devD1, StatsRec.emptyRec) :=
  ⟨rfl, rfl⟩

/-- Claim C2 (amended): the device-info and statistics fetches form a
single failure domain: if either raises, the Device record keeps its
base listing fields unchanged (nothing removed or nulled) and the empty
Stats object is stored for that key — in both failure cases the Device
record itself remains intact. -/
theorem claimC2_theorem (api : Api) (siteId : String) (device : Device)
    (clients : List Client)
    (h : api.deviceInfo siteId device.id = none ∨
         api.deviceStats siteId device.id = none) :
    process_device api siteId device clients =
      (device.id, device, StatsRec.emptyRec) := by
  cases hi : api.deviceInfo siteId device.id with
  | none => simp [process_device, hi]
  | some info =>
      cases hs : api.deviceStats siteId device.id with
      | none => simp [process_device, hi, hs]
      | some st =>
          rcases h with h | h
          · rw [h] at hi
            cases hi
          · rw [h] at hs
            cases hs

theorem claimC2_witness :
    process_device apiInfoFail "s1" devD1 [clientU1] =
      ("d1", devD1, StatsRec.emptyRec) :=
  claimC2_theorem apiInfoFail "s1" devD1 [clientU1] (Or.inl rfl)

theorem stepSite_sites (api : Api) (st : CoordState) (k : String) :
    (stepSite api st k).sites = st.sites := by
  cases hp : process_site api k with
  | none => simp [stepSite, hp]
  | some r =>
      obtain ⟨dd, sd, cd⟩ := r
      simp [stepSite, hp]

theorem foldl_stepSite_sites (api : Api) (ks : List String) (st : CoordState) :
    (ks.foldl (stepSite api) st).sites = st.sites := by
  induction ks generalizing st with
  | nil => rfl
  | cons k ks ih => rw [List.foldl_cons, ih, stepSite_sites]

theorem stepSite_preserve (api : Api) (st : CoordState) (k siteId : String)
    (h : k = siteId → process_site api k = none) :
    lookup (stepSite api st k).devices siteId = lookup st.devices siteId ∧
    lookup (stepSite api st k).stats siteId = lookup st.stats siteId ∧
    lookup (stepSite api st k).clients siteId = lookup st.clients siteId := by
  cases hp : process_site api k with
  | none => simp [stepSite, hp]
  | some r =>
      obtain ⟨dd, sd, cd⟩ := r
      have hne : siteId ≠ k := by
        intro he
        rw [h he.symm] at hp
        cases hp
      simp only [stepSite, hp]
      exact ⟨lookup_setKey_ne _ _ _ _ hne, lookup_setKey_ne _ _ _ _ hne,
        lookup_setKey_ne _ _ _ _ hne⟩

theorem foldl_stepSite_preserve (api : Api) (ks : List String) (st : CoordState)
    (siteId : String)
    (h : ∀ k ∈ ks, k = siteId → process_site api k = none) :
    lookup (ks.foldl (stepSite api) st).devices siteId = lookup st.devices siteId ∧
    lookup (ks.foldl (stepSite api) st).stats siteId = lookup st.stats siteId ∧
    lookup (ks.foldl (stepSite api) st).clients siteId = lookup st.clients siteId := by
  induction ks generalizing st with
  | nil => exact ⟨rfl, rfl, rfl⟩
  | cons k ks ih =>
      have hk := h k (List.mem_cons_self k ks)
      have hks : ∀ k' ∈ ks, k' = siteId → process_site api k' = none :=
        fun k' hm => h k' (List.mem_cons_of_mem k hm)
      rw [List.foldl_cons]
      obtain ⟨i1, i2, i3⟩ := ih (stepSite api st k) hks
      obtain ⟨s1, s2, s3⟩ := stepSite_preserve api st k siteId hk
      exact ⟨i1.trans s1, i2.trans s2, i3.trans s3⟩

theorem not_mem_keys_of_lookup_none {α : Type} (m : List (String × α)) (k : String)
    (h : lookup m k = none) : k ∉ m.map Prod.fst := by
  induction m with
  | nil => simp
  | cons hd tl ih =>
      obtain ⟨k', v⟩ := hd
      simp only [lookup] at h
      by_cases hk : k' = k
      · rw [if_pos hk] at h
        cases h
      · rw [if_neg hk] at h
        simp only [List.map_cons, List.mem_cons]
        rintro (he | he)
        · exact hk he.symm
        · exact ih h he

theorem async_update_data_ok_fields (api : Api) (st : CoordState) (l : List Site)
    (hs : api.sites = SitesResult.ok l) :
    (async_update_data api st).1 = UpdateOutcome.ok ∧
    (async_update_data api st).2.sites = (refreshedState api st l).sites ∧
    (async_update_data api st).2.devices = (refreshedState api st l).devices ∧
    (async_update_data api st).2.stats = (refreshedState api st l).stats ∧
    (async_update_data api st).2.clients = (refreshedState api st l).clients ∧
    (async_update_data api st).2.available = true := by
  cases hpr : api.protect <;> simp [async_update_data, refreshedState, hs, hpr]

/-- Claim C4: if a site appears in the freshly pulled site list but its
per-site devices/clients fetch fails, the site still appears in the
wholesale-replaced Site map while that site's devices, stats and clients
entries are left exactly as they were before the cycle. -/
theorem claimC4_theorem (api : Api) (st : CoordState) (l : List Site)
    (siteId : String) (site : Site)
    (hs : api.sites = SitesResult.ok l)
    (hsite : lookup (buildDict Site.id l) siteId = some site)
    (hfetch : api.devicesOf siteId = none ∨ api.clientsOf siteId = none) :
    (async_update_data api st).1 = UpdateOutcome.ok ∧
    lookup (async_update_data api st).2.sites siteId = some site ∧
    lookup (async_update_data api st).2.devices siteId = lookup st.devices siteId ∧
    lookup (async_update_data api st).2.stats siteId = lookup st.stats siteId ∧
    lookup (async_update_data api st).2.clients siteId = lookup st.clients siteId := by
  have hfail : process_site api siteId = none := by
    rcases hfetch with h | h
    · cases hx : api.clientsOf siteId <;> simp [process_site, h, hx]
    · cases hx : api.devicesOf siteId <;> simp [process_site, h, hx]
  obtain ⟨h1, h2, h3, h4, h5, _⟩ := async_update_data_ok_fields api st l hs
  have hpres := foldl_stepSite_preserve api ((buildDict Site.id l).map Prod.fst)
    ({ st with sites := buildDict Site.id l }) siteId
    (fun k _ he => he ▸ hfail)
  refine ⟨h1, ?_, ?_, ?_, ?_⟩
  · rw [h2]
    show lookup (refreshedState api st l).sites siteId = some site
    rw [refreshedState, foldl_stepSite_sites]
    exact hsite
  · rw [h3]
    exact hpres.1
  · rw [h4]
    exact hpres.2.1
  · rw [h5]
    exact hpres.2.2

theorem claimC4_witness :
    (async_update_data apiSiteFetchFail stPrev).1 = UpdateOutcome.ok ∧
    lookup (async_update_data apiSiteFetchFail stPrev).2.sites "s1" = some siteS1 ∧
    lookup (async_update_data apiSiteFetchFail stPrev).2.devices "s1" =
      lookup stPrev.devices "s1" ∧
    lookup (async_update_data apiSiteFetchFail stPrev).2.stats "s1" =
      lookup stPrev.stats "s1" ∧
    lookup (async_update_data apiSiteFetchFail stPrev).2.clients "s1" =
      lookup stPrev.clients "s1" :=
  claimC4_theorem apiSiteFetchFail stPrev [siteS1] "s1" siteS1 rfl (by decide) (Or.inl rfl)

/-- Claim C8: a site-listing auth failure surfaces the auth-failure
outcome and leaves `available = false`; a subsequent cycle whose site
listing succeeds runs to completion, returns the normal outcome and
resets `available = true`. -/
theorem claimC8_theorem (api1 api2 : Api) (st : CoordState) (l : List Site)
    (h1 : api1.sites = SitesResult.authErr) (h2 : api2.sites = SitesResult.ok l) :
    (async_update_data api1 st).1 = UpdateOutcome.authFailed ∧
    (async_update_data api1 st).2.available = false ∧
    (async_update_data api2 (async_update_data api1 st).2).1 = UpdateOutcome.ok ∧
    (async_update_data api2 (async_update_data api1 st).2).2.available = true := by
  have hf := async_update_data_ok_fields api2 (async_update_data api1 st).2 l h2
  refine ⟨?_, ?_, hf.1, hf.2.2.2.2.2⟩
  · simp [async_update_data, h1]
  · simp [async_update_data, h1]

theorem claimC8_witness :
    (async_update_data apiAuthFail stPrev).1 = UpdateOutcome.authFailed ∧
    (async_update_data apiAuthFail stPrev).2.available = false ∧
    (async_update_data apiAllOk (async_update_data apiAuthFail stPrev).2).1 =
      UpdateOutcome.ok ∧
    (async_update_data apiAllOk (async_update_data apiAuthFail stPrev).2).2.available =
      true :=
  claimC8_theorem apiAuthFail apiAllOk stPrev [siteS1] rfl rfl

/-- Claim C9 (counterexample): a site key absent from the new site-list
pull is not dropped from the Device map — after a cycle whose site pull
returns the empty list, the Site map is empty but the previous cycle's
devices entry for site `s1` is still present. -/
theorem claimC9_counterexample :
    (async_update_data apiNoSites stPrev).2.sites = [] ∧
    lookup (async_update_data apiNoSites stPrev).2.devices "s1" =
      some [("d1", devD1)] := by
  constructor
  · rfl
  · rfl

/-- Claim C9 (amended): the Site map alone is rebuilt wholesale every
cycle; the Device, Stats and Client maps are updated only at sites
present in the new pull, so a site key absent from the new site-list
pull is not dropped — its previously stored device/stats/client entries
are retained unchanged. -/
theorem claimC9_theorem (api : Api) (st : CoordState) (l : List Site)
    (siteId : String)
    (hs : api.sites = SitesResult.ok l)
    (habs : lookup (buildDict Site.id l) siteId = none) :
    (async_update_data api st).2.sites = buildDict Site.id l ∧
    lookup (async_update_data api st).2.devices siteId = lookup st.devices siteId ∧
    lookup (async_update_data api st).2.stats siteId = lookup st.stats siteId ∧
    lookup (async_update_data api st).2.clients siteId = lookup st.clients siteId := by
  obtain ⟨_, h2, h3, h4, h5, _⟩ := async_update_data_ok_fields api st l hs
  have hnk := not_mem_keys_of_lookup_none (buildDict Site.id l) siteId habs
  have hpres := foldl_stepSite_preserve api ((buildDict Site.id l).map Prod.fst)
    ({ st with sites := buildDict Site.id l }) siteId
    (fun k hk he => absurd (he ▸ hk) hnk)
  refine ⟨?_, ?_, ?_, ?_⟩
  · rw [h2]
    show (refreshedState api st l).sites = buildDict Site.id l
    rw [refreshedState, foldl_stepSite_sites]
  · rw [h3]
    exact hpres.1
  · rw [h4]
    exact hpres.2.1
  · rw [h5]
    exact hpres.2.2

theorem claimC9_witness :
    (async_update_data apiNoSites stPrev).2.sites = buildDict Site.id [] ∧
    lookup (async_update_data apiNoSites stPrev).2.devices "s1" =
      lookup stPrev.devices "s1" ∧
    lookup (async_update_data apiNoSites stPrev).2.stats "s1" =
      lookup stPrev.stats "s1" ∧
    lookup (async_update_data apiNoSites stPrev).2.clients "s1" =
      lookup stPrev.clients "s1" :=
  claimC9_theorem apiNoSites stPrev [] "s1" rfl rfl

/-- Claim C6: for a device whose info and stats fetches both succeed,
the stored stats' `clients` list consists of exactly the clients of the
site whose `uplinkDeviceId` equals the device id, and no others. -/
theorem claimC6_theorem (api : Api) (siteId : String) (device : Device)
    (clients : List Client) (info payload : String)
    (hi : api.deviceInfo siteId device.id = some info)
    (hs : api.deviceStats siteId device.id = some (some payload)) :
    ∃ l, (process_device api siteId device clients).2.2.clients = some l ∧
      ∀ c, c ∈ l ↔ (c ∈ clients ∧ c.uplinkDeviceId = some device.id) := by
  refine ⟨clients.filter (fun c => c.uplinkDeviceId == some device.id), ?_, ?_⟩
  · simp [process_device, hi, hs]
  · intro c
    simp [List.mem_filter]

theorem claimC6_witness :
    ∃ l, (process_device apiAllOk "s1" devD1 [clientU1, clientU2]).2.2.clients =
        some l ∧
      ∀ c, c ∈ l ↔ (c ∈ [clientU1, clientU2] ∧ c.uplinkDeviceId = some devD1.id) :=
  claimC6_theorem apiAllOk "s1" devD1 [clientU1, clientU2] "fw" "sp" rfl rfl

theorem lookup_isSome_foldl_pair {α β : Type} (results : List (String × α × β))
    (m₁ : List (String × α)) (m₂ : List (String × β)) (k : String)
    (h : (lookup m₁ k).isSome = (lookup m₂ k).isSome) :
    (lookup (results.foldl (fun m r => setKey m r.1 r.2.1) m₁) k).isSome =
      (lookup (results.foldl (fun m r => setKey m r.1 r.2.2) m₂) k).isSome := by
  induction results generalizing m₁ m₂ with
  | nil => exact h
  | cons r rs ih =>
      obtain ⟨key, a, b⟩ := r
      rw [List.foldl_cons, List.foldl_cons]
      apply ih
      by_cases hk : k = key
      · subst hk
        rw [lookup_setKey_self, lookup_setKey_self]
        rfl
      · rw [lookup_setKey_ne _ _ _ _ hk, lookup_setKey_ne _ _ _ _ hk]
        exact h

theorem process_device_stats_ok (api : Api) (siteId : String) (device : Device)
    (clients : List Client) :
    (process_device api siteId device clients).1 = device.id ∧
    ((process_device api siteId device clients).2.2 = StatsRec.emptyRec ∨
      (process_device api siteId device clients).2.2.id =
        some (process_device api siteId device clients).1) := by
  cases hi : api.deviceInfo siteId device.id with
  | none => simp [process_device, hi]
  | some info =>
      cases hs : api.deviceStats siteId device.id with
      | none => simp [process_device, hi, hs]
      | some stResp =>
          cases stResp with
          | none => simp [process_device, hi, hs]
          | some payload => simp [process_device, hi, hs]

theorem lookup_foldl_statsId (results : List (String × Device × StatsRec))
    (m : List (String × StatsRec)) (k : String)
    (hres : ∀ r ∈ results, r.2.2 = StatsRec.emptyRec ∨ r.2.2.id = some r.1)
    (hm : ∀ r, lookup m k = some r → r = StatsRec.emptyRec ∨ r.id = some k) :
    ∀ r, lookup (results.foldl (fun m r => setKey m r.1 r.2.2) m) k = some r →
      r = StatsRec.emptyRec ∨ r.id = some k := by
  induction results generalizing m with
  | nil => exact hm
  | cons r0 rs ih =>
      rw [List.foldl_cons]
      apply ih _ (fun r' hm' => hres r' (List.mem_cons_of_mem r0 hm'))
      intro r hr
      by_cases hk : k = r0.1
      · rw [hk, lookup_setKey_self] at hr
        injection hr with hr
        subst hr
        rcases hres r0 (List.mem_cons_self r0 rs) with h | h
        · exact Or.inl h
        · right
          rw [h, hk]
      · rw [lookup_setKey_ne _ _ _ _ hk] at hr
        exact hm r hr

theorem process_site_some (api : Api) (k : String)
    (dd : List (String × Device)) (sd : List (String × StatsRec))
    (cd : List (String × Client))
    (hp : process_site api k = some (dd, sd, cd)) :
    (∀ d, (lookup dd d).isSome = (lookup sd d).isSome) ∧
    (∀ d r, lookup sd d = some r → r = StatsRec.emptyRec ∨ r.id = some d) := by
  unfold process_site at hp
  cases hd : api.devicesOf k with
  | none =>
      rw [hd] at hp
      cases hp
  | some devices =>
      cases hc : api.clientsOf k with
      | none =>
          rw [hd, hc] at hp
          cases hp
      | some clients =>
          rw [hd, hc] at hp
          simp only [Option.some.injEq, Prod.mk.injEq] at hp
          obtain ⟨h1, h2, h3⟩ := hp
          subst h1
          subst h2
          subst h3
          constructor
          · intro d
            exact lookup_isSome_foldl_pair _ [] [] d rfl
          · intro d
            apply lookup_foldl_statsId
            · intro r hr
              obtain ⟨dvc, hdvc, hre⟩ := List.mem_map.mp hr
              subst hre
              exact (process_device_stats_ok api k dvc clients).2
            · intro r hr
              cases hr

theorem coverInv_fields (st₁ st₂ : CoordState) (hd : st₁.devices = st₂.devices)
    (hs : st₁.stats = st₂.stats) (h : coverInv st₁) : coverInv st₂ := by
  intro siteId deviceId dd hdev hsome
  rw [← hd] at hdev
  rw [← hs]
  exact h siteId deviceId dd hdev hsome

theorem statsIdInv_fields (st₁ st₂ : CoordState) (hs : st₁.stats = st₂.stats)
    (h : statsIdInv st₁) : statsIdInv st₂ := by
  intro siteId deviceId sd r hst hrec
  rw [← hs] at hst
  exact h siteId deviceId sd r hst hrec

theorem stepSite_coverInv (api : Api) (st : CoordState) (k : String)
    (h : coverInv st) : coverInv (stepSite api st k) := by
  cases hp : process_site api k with
  | none => simpa [stepSite, hp] using h
  | some r =>
      obtain ⟨dd, sd, cd⟩ := r
      intro siteId deviceId dd' hdev hsome
      by_cases hk : siteId = k
      · subst hk
        simp only [stepSite, hp] at hdev ⊢
        rw [lookup_setKey_self] at hdev
        injection hdev with hdev
        subst hdev
        refine ⟨sd, lookup_setKey_self _ _ _, ?_⟩
        rw [← (process_site_some api siteId dd sd cd hp).1 deviceId]
        exact hsome
      · simp only [stepSite, hp] at hdev ⊢
        rw [lookup_setKey_ne _ _ _ _ hk] at hdev
        obtain ⟨sd', h1, h2⟩ := h siteId deviceId dd' hdev hsome
        refine ⟨sd', ?_, h2⟩
        rw [lookup_setKey_ne _ _ _ _ hk]
        exact h1

theorem stepSite_statsIdInv (api : Api) (st : CoordState) (k : String)
    (h : statsIdInv st) : statsIdInv (stepSite api st k) := by
  cases hp : process_site api k with
  | none => simpa [stepSite, hp] using h
  | some r =>
      obtain ⟨dd, sd, cd⟩ := r
      intro siteId deviceId sd' rec hst hrec
      by_cases hk : siteId = k
      · subst hk
        simp only [stepSite, hp] at hst
        rw [lookup_setKey_self] at hst
        injection hst with hst
        subst hst
        exact (process_site_some api siteId dd sd cd hp).2 deviceId rec hrec
      · simp only [stepSite, hp] at hst
        rw [lookup_setKey_ne _ _ _ _ hk] at hst
        exact h siteId deviceId sd' rec hst hrec

theorem foldl_stepSite_coverInv (api : Api) (ks : List String) (st : CoordState)
    (h : coverInv st) : coverInv (ks.foldl (stepSite api) st) := by
  induction ks generalizing st with
  | nil => exact h
  | cons k ks ih =>
      rw [List.foldl_cons]
      exact ih _ (stepSite_coverInv api st k h)

theorem foldl_stepSite_statsIdInv (api : Api) (ks : List String) (st : CoordState)
    (h : statsIdInv st) : statsIdInv (ks.foldl (stepSite api) st) := by
  induction ks generalizing st with
  | nil => exact h
  | cons k ks ih =>
      rw [List.foldl_cons]
      exact ih _ (stepSite_statsIdInv api st k h)

/-- Claim C5: one refresh cycle preserves the device-to-stats coverage
invariant — every `(site, device)` key present in the Device map has a
(possibly empty) entry under the same key in the Stats map.  The initial
coordinator state satisfies the invariant trivially (the witness applies
this theorem to it), so the invariant holds after every cycle, whatever
its outcome, and in particular after every successful one. -/
theorem claimC5_theorem (api : Api) (st : CoordState) (h : coverInv st) :
    coverInv (async_update_data api st).2 := by
  cases hs : api.sites with
  | authErr =>
      have he : (async_update_data api st).2 = { st with available := false } := by
        simp [async_update_data, hs]
      rw [he]
      exact coverInv_fields st _ rfl rfl h
  | connErr =>
      have he : (async_update_data api st).2 = { st with available := false } := by
        simp [async_update_data, hs]
      rw [he]
      exact coverInv_fields st _ rfl rfl h
  | ok l =>
      obtain ⟨_, _, h3, h4, _, _⟩ := async_update_data_ok_fields api st l hs
      apply coverInv_fields (refreshedState api st l) _ h3.symm h4.symm
      exact foldl_stepSite_coverInv api _ _ (coverInv_fields st _ rfl rfl h)

theorem claimC5_witness : coverInv (async_update_data apiStatsFail initialCoordState).2 :=
  claimC5_theorem apiStatsFail initialCoordState
    (fun siteId deviceId dd hdev _ => by simp [initialCoordState, lookup] at hdev)

/-- Claim C7 (counterexample): after a cycle in which device `d1`'s
stats fetch raises, the Stats map holds the empty object `{}` under key
`(s1, d1)`, and that record has no `id` field at all — so it is not true
that every stored Stats record's `id` field exists and equals its key. -/
theorem claimC7_counterexample :
    lookup (async_update_data apiStatsFail initialCoordState).2.stats "s1" =
      some [("d1", StatsRec.emptyRec)] ∧
    StatsRec.emptyRec.id = none := by
  constructor
  · rfl
  · rfl

/-- Claim C7 (amended): one refresh cycle preserves the stats-id
invariant — every record in the Stats map is either the empty object
`{}` (stored when the stats fetch failed or returned `None`) or carries
an `id` field equal to the Device identifier under which it is keyed.
The initial state satisfies the invariant trivially (the witness applies
this theorem to it), so the invariant holds after every cycle. -/
theorem claimC7_theorem (api : Api) (st : CoordState) (h : statsIdInv st) :
    statsIdInv (async_update_data api st).2 := by
  cases hs : api.sites with
  | authErr =>
      have he : (async_update_data api st).2 = { st with available := false } := by
        simp [async_update_data, hs]
      rw [he]
      exact statsIdInv_fields st _ rfl h
  | connErr =>
      have he : (async_update_data api st).2 = { st with available := false } := by
        simp [async_update_data, hs]
      rw [he]
      exact statsIdInv_fields st _ rfl h
  | ok l =>
      obtain ⟨_, _, _, h4, _, _⟩ := async_update_data_ok_fields api st l hs
      apply statsIdInv_fields (refreshedState api st l) _ h4.symm
      exact foldl_stepSite_statsIdInv api _ _ (statsIdInv_fields st _ rfl h)

theorem claimC7_witness :
    statsIdInv (async_update_data apiStatsFail initialCoordState).2 :=
  claimC7_theorem apiStatsFail initialCoordState
    (fun siteId deviceId sd r hst _ => by simp [initialCoordState, lookup] at hst)

end UnifiInsights
